import Mathlib

/-!
Shallow embedding of `src/core/xconnection/event.rs` from the penrose
repository: the `XEvent` data model, the `ClientMessage` value type with its
validated constructor `try_from_data`, and the `ClientMessageKind::as_message`
builder that lowers a semantic message kind into a wire-ready `ClientMessage`
via an injected atom-resolution capability.
-/

namespace Penrose

/-- An X resource id (`Xid = u32` in the source); modelled as `Nat` since no
arithmetic is performed on ids in this slice. -/
abbrev Xid := Nat

/-- Event masks used when sending client events (`ClientEventMask`). -/
inductive ClientEventMask where
  | SubstructureNotify
  | NoEventMask
deriving DecidableEq, Repr

/-- Errors of this slice. `InvalidClientMessageData` is the constructor used by
`ClientMessage::try_from_data` in the source. The enclosing `XError` enum lives
outside the examined file; its remaining variants (in particular whatever error
an atom resolver may produce) are collapsed into `Raw`.
Modelled from the spec: the error enum itself is outside `src/`, only the
`InvalidClientMessageData(len)` constructor appears in the examined code. -/
inductive XError where
  | InvalidClientMessageData (len : Nat)
  | Raw (msg : String)
deriving DecidableEq, Repr

/-- The `Result<T>` alias of the source: `Result<T, XError>`. -/
abbrev XResult (α : Type) := Except XError α

/-- Interned atom names needed by `as_message`.
Modelled from the spec: the `Atom` enum and its `as_ref` strings live outside
`src/`; the spec names the "window-manager protocols" atom, the specific
protocol atoms, the "manager" atom, the systray selection atom and the
"XEmbed" atom, rendered here with their canonical X11 names. -/
inductive Atom where
  | WmProtocols
  | WmDeleteWindow
  | WmTakeFocus
  | Manager
  | NetSystemTrayS0
  | XEmbed
deriving DecidableEq, Repr

/-- `Atom::as_ref` — the canonical string for each atom name. -/
def Atom.as_ref : Atom → String
  | .WmProtocols => "WM_PROTOCOLS"
  | .WmDeleteWindow => "WM_DELETE_WINDOW"
  | .WmTakeFocus => "WM_TAKE_FOCUS"
  | .Manager => "MANAGER"
  | .NetSystemTrayS0 => "_NET_SYSTEM_TRAY_S0"
  | .XEmbed => "_XEMBED"

/-- The atom-resolution capability (`XAtomQuerier::atom_id`): a fallible map
from an atom name to its resolved numeric identifier. -/
abbrev AtomResolver := String → XResult Nat

/-- A client message that needs to be parsed and handled based on its type
(`ClientMessage`). The `data` field is private in the source; its accessor
`data()` returns the stored words. -/
structure ClientMessage where
  id : Xid
  mask : ClientEventMask
  dtype : String
  data : List Nat
deriving DecidableEq, Repr

/-- `ClientMessage::from_data_unchecked` — the crate-internal unchecked
constructor. -/
def ClientMessage.from_data_unchecked (id : Xid) (mask : ClientEventMask)
    (dtype : String) (data : List Nat) : ClientMessage :=
  { id := id, mask := mask, dtype := dtype, data := data }

/-- `ClientMessage::try_from_data` — validates `data.len() == 5` before
constructing; fails with `InvalidClientMessageData(data.len())` otherwise. -/
def ClientMessage.try_from_data (id : Xid) (mask : ClientEventMask)
    (dtype : String) (data : List Nat) : XResult ClientMessage :=
  if data.length ≠ 5 then
    .error (.InvalidClientMessageData data.length)
  else
    .ok (ClientMessage.from_data_unchecked id mask dtype data)

/-- Known common client message formats (`ClientMessageKind`). -/
inductive ClientMessageKind where
  | DeleteWindow (id : Xid)
  | TakeFocus (id : Xid)
  | TakeSystrayOwnership (root_id systray_id : Xid)
  | XEmbedFocusIn (id other : Xid)
  | XEmbedModalityOn (id other : Xid)
  | XEmbedNotify (id other : Xid)
  | XEmbedWindowActivate (id other : Xid)
deriving DecidableEq, Repr

/-- `ClientMessageKind::as_message` — build a default `ClientMessage`
compatible with X11 / XCB formats, resolving any needed atoms through `s`. -/
def ClientMessageKind.as_message (k : ClientMessageKind) (s : AtomResolver) :
    XResult ClientMessage :=
  let proto_msg : Xid → Atom → XResult ClientMessage := fun id atom => do
    let proto := Atom.WmProtocols.as_ref
    let a ← s atom.as_ref
    let data := [a, 0, 0, 0, 0]
    let mask := ClientEventMask.NoEventMask
    pure (ClientMessage.from_data_unchecked id mask proto data)
  let xembed_version : Nat := 0
  let notify : Nat := 0
  let activate : Nat := 1
  let focus_in : Nat := 4
  let modality_on : Nat := 10
  let xembed_msg : Xid → Xid → Nat → XResult ClientMessage :=
    fun id embedder kind =>
      let atom := Atom.XEmbed.as_ref
      let data := [0, kind, 0, embedder, xembed_version]
      let mask := ClientEventMask.SubstructureNotify
      .ok (ClientMessage.from_data_unchecked id mask atom data)
  match k with
  | .DeleteWindow id => proto_msg id Atom.WmDeleteWindow
  | .TakeFocus id => proto_msg id Atom.WmTakeFocus
  | .TakeSystrayOwnership root_id systray_id => do
      let atom := Atom.Manager.as_ref
      let systray ← s Atom.NetSystemTrayS0.as_ref
      let data := [0, systray, systray_id, 0, 0]
      let mask := ClientEventMask.SubstructureNotify
      pure (ClientMessage.from_data_unchecked root_id mask atom data)
  | .XEmbedFocusIn id other => xembed_msg id other focus_in
  | .XEmbedModalityOn id other => xembed_msg id other modality_on
  | .XEmbedNotify id other => xembed_msg id other notify
  | .XEmbedWindowActivate id other => xembed_msg id other activate

/-- A point on the screen.
Modelled from the spec: `Point` lives in `data_types.rs`, outside `src/`;
the spec describes it as a position (two unsigned coordinates). -/
structure Point where
  x : Nat
  y : Nat
deriving DecidableEq, Repr

/-- A region of the screen.
Modelled from the spec: `Region` lives in `data_types.rs`, outside `src/`;
the spec describes it as position plus size. -/
structure Region where
  x : Nat
  y : Nat
  w : Nat
  h : Nat
deriving DecidableEq, Repr

/-- A grabbed key combination.
Modelled from the spec: the key-chord descriptor of the bindings module,
outside `src/` — a modifier mask and a key code. -/
structure KeyCode where
  mask : Nat
  code : Nat
deriving DecidableEq, Repr

/-- A mouse event descriptor.
Modelled from the spec: the mouse-event descriptor of the bindings module,
outside `src/` — window id, absolute and window-relative coordinates and a
button/kind discriminant, carried structurally by `XEvent`. -/
structure MouseEvent where
  id : Xid
  rpt : Point
  wpt : Point
  button : Nat
  kind : Nat
deriving DecidableEq, Repr

/-- A configure request or notification (`ConfigureEvent`). -/
structure ConfigureEvent where
  id : Xid
  r : Region
  is_root : Bool
deriving DecidableEq, Repr

/-- A notification that a window has become visible (`ExposeEvent`). -/
structure ExposeEvent where
  id : Xid
  r : Region
  count : Nat
deriving DecidableEq, Repr

/-- A notification that the mouse pointer has entered or left a window
(`PointerChange`). -/
structure PointerChange where
  id : Xid
  abs : Point
  relative : Point
deriving DecidableEq, Repr

/-- A property change on a known client (`PropertyEvent`). -/
structure PropertyEvent where
  id : Xid
  atom : String
  is_root : Bool
deriving DecidableEq, Repr

/-- Wrapper around the low level X event types (`XEvent`). -/
inductive XEvent where
  | ClientMessage (m : Penrose.ClientMessage)
  | ConfigureNotify (e : ConfigureEvent)
  | ConfigureRequest (e : ConfigureEvent)
  | Enter (p : PointerChange)
  | Expose (e : ExposeEvent)
  | Destroy (id : Xid)
  | KeyPress (k : KeyCode)
  | Leave (p : PointerChange)
  | MapRequest (id : Xid) (managed : Bool)
  | MouseEvent (m : Penrose.MouseEvent)
  | PropertyNotify (e : PropertyEvent)
  | RandrNotify
  | ScreenChange
deriving DecidableEq, Repr

/-! ### Structural comparison and hashing

The source derives `PartialEq`, `Eq` and `Hash` on `XEvent` and every payload
struct: field-by-field structural comparison, and a hash that feeds the variant
discriminant and each field into the hasher in order. The functions below
mirror those derives. -/

/-- A 64-bit hash-combining step (FNV-style multiply and add, as a stand-in
for the hasher state transition of the derived `Hash`). -/
def mixHash (h v : Nat) : Nat := (h * 1099511628211 + v) % 2 ^ 64

/-- Hash of a string: fold its characters into the hasher state. -/
def hashString (s : String) : Nat :=
  s.data.foldl (fun h c => mixHash h c.toNat) 7

/-- Hash of a word sequence: the derived `Hash` for a sequence writes its
length followed by each element. -/
def hashWords (l : List Nat) : Nat :=
  l.foldl mixHash (mixHash 3 l.length)

/-- Structural comparison on `ClientEventMask` (the derived `PartialEq`). -/
def ClientEventMask.beq : ClientEventMask → ClientEventMask → Bool
  | .SubstructureNotify, .SubstructureNotify => true
  | .NoEventMask, .NoEventMask => true
  | _, _ => false

/-- Discriminant-based hash on `ClientEventMask` (the derived `Hash`). -/
def ClientEventMask.hashW : ClientEventMask → Nat
  | .SubstructureNotify => 0
  | .NoEventMask => 1

/-- Structural comparison on `ClientMessage` (the derived `PartialEq`):
every field, the private `data` included, is compared. -/
def ClientMessage.beq (a b : ClientMessage) : Bool :=
  decide (a.id = b.id) && a.mask.beq b.mask && decide (a.dtype = b.dtype) &&
    decide (a.data = b.data)

/-- Field-by-field hash on `ClientMessage` (the derived `Hash`). -/
def ClientMessage.hashW (m : ClientMessage) : Nat :=
  mixHash (mixHash (mixHash (mixHash 11 m.id) m.mask.hashW)
    (hashString m.dtype)) (hashWords m.data)

/-- Structural comparison on `Point`. -/
def Point.beq (a b : Point) : Bool :=
  decide (a.x = b.x) && decide (a.y = b.y)

/-- Field-by-field hash on `Point`. -/
def Point.hashW (p : Point) : Nat := mixHash (mixHash 13 p.x) p.y

/-- Structural comparison on `Region`. -/
def Region.beq (a b : Region) : Bool :=
  decide (a.x = b.x) && decide (a.y = b.y) && decide (a.w = b.w) &&
    decide (a.h = b.h)

/-- Field-by-field hash on `Region`. -/
def Region.hashW (r : Region) : Nat :=
  mixHash (mixHash (mixHash (mixHash 17 r.x) r.y) r.w) r.h

/-- Structural comparison on `KeyCode`. -/
def KeyCode.beq (a b : KeyCode) : Bool :=
  decide (a.mask = b.mask) && decide (a.code = b.code)

/-- Field-by-field hash on `KeyCode`. -/
def KeyCode.hashW (k : KeyCode) : Nat := mixHash (mixHash 19 k.mask) k.code

/-- Structural comparison on `MouseEvent`. -/
def MouseEvent.beq (a b : MouseEvent) : Bool :=
  decide (a.id = b.id) && a.rpt.beq b.rpt && a.wpt.beq b.wpt &&
    decide (a.button = b.button) && decide (a.kind = b.kind)

/-- Field-by-field hash on `MouseEvent`. -/
def MouseEvent.hashW (m : MouseEvent) : Nat :=
  mixHash (mixHash (mixHash (mixHash (mixHash 23 m.id) m.rpt.hashW)
    m.wpt.hashW) m.button) m.kind

/-- Structural comparison on `ConfigureEvent`. -/
def ConfigureEvent.beq (a b : ConfigureEvent) : Bool :=
  decide (a.id = b.id) && a.r.beq b.r && decide (a.is_root = b.is_root)

/-- Field-by-field hash on `ConfigureEvent`. -/
def ConfigureEvent.hashW (e : ConfigureEvent) : Nat :=
  mixHash (mixHash (mixHash 29 e.id) e.r.hashW) (cond e.is_root 1 0)

/-- Structural comparison on `ExposeEvent`. -/
def ExposeEvent.beq (a b : ExposeEvent) : Bool :=
  decide (a.id = b.id) && a.r.beq b.r && decide (a.count = b.count)

/-- Field-by-field hash on `ExposeEvent`. -/
def ExposeEvent.hashW (e : ExposeEvent) : Nat :=
  mixHash (mixHash (mixHash 31 e.id) e.r.hashW) e.count

/-- Structural comparison on `PointerChange`. -/
def PointerChange.beq (a b : PointerChange) : Bool :=
  decide (a.id = b.id) && a.abs.beq b.abs && a.relative.beq b.relative

/-- Field-by-field hash on `PointerChange`. -/
def PointerChange.hashW (p : PointerChange) : Nat :=
  mixHash (mixHash (mixHash 37 p.id) p.abs.hashW) p.relative.hashW

/-- Structural comparison on `PropertyEvent`. -/
def PropertyEvent.beq (a b : PropertyEvent) : Bool :=
  decide (a.id = b.id) && decide (a.atom = b.atom) &&
    decide (a.is_root = b.is_root)

/-- Field-by-field hash on `PropertyEvent`. -/
def PropertyEvent.hashW (e : PropertyEvent) : Nat :=
  mixHash (mixHash (mixHash 41 e.id) (hashString e.atom)) (cond e.is_root 1 0)

/-- Structural comparison on `XEvent` (the derived `PartialEq`): same variant
and structurally equal payloads. -/
def XEvent.beq : XEvent → XEvent → Bool
  | .ClientMessage a, .ClientMessage b => a.beq b
  | .ConfigureNotify a, .ConfigureNotify b => a.beq b
  | .ConfigureRequest a, .ConfigureRequest b => a.beq b
  | .Enter a, .Enter b => a.beq b
  | .Expose a, .Expose b => a.beq b
  | .Destroy a, .Destroy b => decide (a = b)
  | .KeyPress a, .KeyPress b => a.beq b
  | .Leave a, .Leave b => a.beq b
  | .MapRequest a m, .MapRequest b m2 => decide (a = b) && decide (m = m2)
  | .MouseEvent a, .MouseEvent b => a.beq b
  | .PropertyNotify a, .PropertyNotify b => a.beq b
  | .RandrNotify, .RandrNotify => true
  | .ScreenChange, .ScreenChange => true
  | _, _ => false

/-- Hash on `XEvent` (the derived `Hash`): the variant discriminant followed
by the payload hash. -/
def XEvent.hashW : XEvent → Nat
  | .ClientMessage a => mixHash 0 a.hashW
  | .ConfigureNotify a => mixHash 1 a.hashW
  | .ConfigureRequest a => mixHash 2 a.hashW
  | .Enter a => mixHash 3 a.hashW
  | .Expose a => mixHash 4 a.hashW
  | .Destroy a => mixHash 5 a
  | .KeyPress a => mixHash 6 a.hashW
  | .Leave a => mixHash 7 a.hashW
  | .MapRequest a m => mixHash (mixHash 8 a) (cond m 1 0)
  | .MouseEvent a => mixHash 9 a.hashW
  | .PropertyNotify a => mixHash 10 a.hashW
  | .RandrNotify => 11
  | .ScreenChange => 12

/-! ### Helper lemmas -/

/-- The atom names whose resolution `as_message` requires for a given kind. -/
def ClientMessageKind.requiredAtoms : ClientMessageKind → List String
  | .DeleteWindow _ => [Atom.WmDeleteWindow.as_ref]
  | .TakeFocus _ => [Atom.WmTakeFocus.as_ref]
  | .TakeSystrayOwnership _ _ => [Atom.NetSystemTrayS0.as_ref]
  | _ => []

theorem as_message_ok_shape (k : ClientMessageKind) (s : AtomResolver)
    (m : ClientMessage) (h : k.as_message s = .ok m) : m.data.length = 5 := by
  cases k <;>
    simp only [ClientMessageKind.as_message, bind, Except.bind, pure,
      Except.pure] at h
  case DeleteWindow id =>
    cases hs : s Atom.WmDeleteWindow.as_ref <;> rw [hs] at h
    · exact absurd h (by simp)
    · cases h; rfl
  case TakeFocus id =>
    cases hs : s Atom.WmTakeFocus.as_ref <;> rw [hs] at h
    · exact absurd h (by simp)
    · cases h; rfl
  case TakeSystrayOwnership root_id systray_id =>
    cases hs : s Atom.NetSystemTrayS0.as_ref <;> rw [hs] at h
    · exact absurd h (by simp)
    · cases h; rfl
  case XEmbedFocusIn id other => cases h; rfl
  case XEmbedModalityOn id other => cases h; rfl
  case XEmbedNotify id other => cases h; rfl
  case XEmbedWindowActivate id other => cases h; rfl

theorem try_from_data_ok_iff (id : Xid) (mask : ClientEventMask)
    (dtype : String) (data : List Nat) (m : ClientMessage) :
    ClientMessage.try_from_data id mask dtype data = .ok m ↔
      data.length = 5 ∧ m = ClientMessage.from_data_unchecked id mask dtype data := by
  unfold ClientMessage.try_from_data
  by_cases h : data.length = 5
  · simp [h, eq_comm]
  · simp [h]

/-! ### Claims -/

/-- C1: `try_from_data(id, mask, dtype, data)` returns
`InvalidClientMessageData(len)` with `len = data.len()` whenever
`data.len() ≠ 5`, and when `data.len() = 5` it returns `Ok` with a message
whose `data()` accessor returns exactly the input sequence, in order. -/
theorem try_from_data_len_spec (id : Xid) (mask : ClientEventMask)
    (dtype : String) (data : List Nat) :
    (data.length ≠ 5 →
      ClientMessage.try_from_data id mask dtype data =
        .error (.InvalidClientMessageData data.length)) ∧
    (data.length = 5 →
      ∃ m, ClientMessage.try_from_data id mask dtype data = .ok m ∧
        m.data = data) := by
  constructor
  · intro h
    simp [ClientMessage.try_from_data, h]
  · intro h
    exact ⟨_, (try_from_data_ok_iff id mask dtype data _).mpr ⟨h, rfl⟩, rfl⟩

/-- Witness for C1 at concrete inputs of length 3 and 5. -/
theorem try_from_data_len_spec_witness :
    (ClientMessage.try_from_data 9 .NoEventMask "TY" [1, 2, 3] =
      .error (.InvalidClientMessageData 3)) ∧
    (∃ m, ClientMessage.try_from_data 9 .NoEventMask "TY" [1, 2, 3, 4, 5] =
      .ok m ∧ m.data = [1, 2, 3, 4, 5]) :=
  ⟨(try_from_data_len_spec 9 .NoEventMask "TY" [1, 2, 3]).1 (by decide),
   (try_from_data_len_spec 9 .NoEventMask "TY" [1, 2, 3, 4, 5]).2 rfl⟩

/-- C2: for each of the four XEmbed kinds and every atom resolver, the message
produced by `as_message` has the XEmbed atom as its type, data exactly
`[0, opcode, 0, other, 0]` with opcode notify=0, activate=1, focus-in=4,
modality-on=10 and the fixed XEmbed version 0 as last word, and mask
`SubstructureNotify`. -/
theorem as_message_xembed_layout (s : AtomResolver) (id other : Xid) :
    (ClientMessageKind.XEmbedNotify id other).as_message s =
      .ok ⟨id, .SubstructureNotify, Atom.XEmbed.as_ref, [0, 0, 0, other, 0]⟩ ∧
    (ClientMessageKind.XEmbedWindowActivate id other).as_message s =
      .ok ⟨id, .SubstructureNotify, Atom.XEmbed.as_ref, [0, 1, 0, other, 0]⟩ ∧
    (ClientMessageKind.XEmbedFocusIn id other).as_message s =
      .ok ⟨id, .SubstructureNotify, Atom.XEmbed.as_ref, [0, 4, 0, other, 0]⟩ ∧
    (ClientMessageKind.XEmbedModalityOn id other).as_message s =
      .ok ⟨id, .SubstructureNotify, Atom.XEmbed.as_ref,
        [0, 10, 0, other, 0]⟩ :=
  ⟨rfl, rfl, rfl, rfl⟩

/-- C3: for `DeleteWindow(id)` and `TakeFocus(id)`, whenever the specific
protocol atom resolves to `a`, `as_message` produces a message with the same
`id`, the window-manager protocols atom as type, mask `NoEventMask`, and data
`[a, 0, 0, 0, 0]`. -/
theorem as_message_proto_spec (s : AtomResolver) (id : Xid) :
    (∀ a, s Atom.WmDeleteWindow.as_ref = .ok a →
      (ClientMessageKind.DeleteWindow id).as_message s =
        .ok ⟨id, .NoEventMask, Atom.WmProtocols.as_ref, [a, 0, 0, 0, 0]⟩) ∧
    (∀ a, s Atom.WmTakeFocus.as_ref = .ok a →
      (ClientMessageKind.TakeFocus id).as_message s =
        .ok ⟨id, .NoEventMask, Atom.WmProtocols.as_ref, [a, 0, 0, 0, 0]⟩) := by
  constructor <;> intro a h <;>
    simp [ClientMessageKind.as_message, h, bind, Except.bind, pure,
      Except.pure, ClientMessage.from_data_unchecked]

/-- Witness for C3 with a resolver that maps every name to 42. -/
theorem as_message_proto_spec_witness :
    (ClientMessageKind.DeleteWindow 5).as_message (fun _ => .ok 42) =
      .ok ⟨5, .NoEventMask, Atom.WmProtocols.as_ref, [42, 0, 0, 0, 0]⟩ ∧
    (ClientMessageKind.TakeFocus 5).as_message (fun _ => .ok 42) =
      .ok ⟨5, .NoEventMask, Atom.WmProtocols.as_ref, [42, 0, 0, 0, 0]⟩ :=
  ⟨(as_message_proto_spec (fun _ => .ok 42) 5).1 42 rfl,
   (as_message_proto_spec (fun _ => .ok 42) 5).2 42 rfl⟩

/-- C4: for `TakeSystrayOwnership(root, systray)`, whenever the systray
selection atom resolves to `a`, `as_message` produces a message addressed to
`root` with the manager atom as type, mask `SubstructureNotify`, and data
`[0, a, systray, 0, 0]`. -/
theorem as_message_systray_spec (s : AtomResolver) (root systray : Xid)
    (a : Nat) (h : s Atom.NetSystemTrayS0.as_ref = .ok a) :
    (ClientMessageKind.TakeSystrayOwnership root systray).as_message s =
      .ok ⟨root, .SubstructureNotify, Atom.Manager.as_ref,
        [0, a, systray, 0, 0]⟩ := by
  simp [ClientMessageKind.as_message, h, bind, Except.bind, pure, Except.pure,
    ClientMessage.from_data_unchecked]

/-- Witness for C4 with a resolver that maps every name to 7. -/
theorem as_message_systray_spec_witness :
    (ClientMessageKind.TakeSystrayOwnership 1 2).as_message (fun _ => .ok 7) =
      .ok ⟨1, .SubstructureNotify, Atom.Manager.as_ref, [0, 7, 2, 0, 0]⟩ :=
  as_message_systray_spec (fun _ => .ok 7) 1 2 7 rfl

/-- C5: for every kind and resolver, `as_message` returns an error iff the
resolver fails on some atom name required by that kind; in the error case the
resolver's error is returned unchanged (and, the result being an `error`, no
`ClientMessage` value is produced). -/
theorem as_message_error_spec (k : ClientMessageKind) (s : AtomResolver) :
    (∀ e, k.as_message s = .error e →
      ∃ name ∈ k.requiredAtoms, s name = .error e) ∧
    ((∃ name ∈ k.requiredAtoms, ∃ e, s name = .error e) →
      ∃ e, k.as_message s = .error e) := by
  cases k <;>
    simp only [ClientMessageKind.as_message, ClientMessageKind.requiredAtoms,
      bind, Except.bind, pure, Except.pure, List.mem_singleton,
      List.not_mem_nil]
  case DeleteWindow id =>
    cases hs : s Atom.WmDeleteWindow.as_ref <;> simp [hs]
  case TakeFocus id =>
    cases hs : s Atom.WmTakeFocus.as_ref <;> simp [hs]
  case TakeSystrayOwnership root_id systray_id =>
    cases hs : s Atom.NetSystemTrayS0.as_ref <;> simp [hs]
  case XEmbedFocusIn id other => simp
  case XEmbedModalityOn id other => simp
  case XEmbedNotify id other => simp
  case XEmbedWindowActivate id other => simp

/-- Witness for C5: a resolver failing on every name makes `DeleteWindow`
fail, and the error is traced back to the required atom name. -/
theorem as_message_error_spec_witness :
    ∃ e, (ClientMessageKind.DeleteWindow 3).as_message
      (fun _ => .error (.Raw "boom")) = .error e :=
  (as_message_error_spec (ClientMessageKind.DeleteWindow 3)
      (fun _ => .error (.Raw "boom"))).2
    ⟨Atom.WmDeleteWindow.as_ref, by simp [ClientMessageKind.requiredAtoms],
      ⟨.Raw "boom", rfl⟩⟩

/-- C6: every externally constructible `ClientMessage` — a successful
`try_from_data` or a successful `as_message` on any kind — carries exactly
5 data words. -/
theorem client_message_five_word_invariant :
    (∀ (id : Xid) (mask : ClientEventMask) (dtype : String) (data : List Nat)
      (m : ClientMessage),
      ClientMessage.try_from_data id mask dtype data = .ok m →
        m.data.length = 5) ∧
    (∀ (k : ClientMessageKind) (s : AtomResolver) (m : ClientMessage),
      k.as_message s = .ok m → m.data.length = 5) := by
  refine ⟨fun id mask dtype data m h => ?_, as_message_ok_shape⟩
  obtain ⟨h5, rfl⟩ := (try_from_data_ok_iff id mask dtype data m).mp h
  exact h5

/-- Witness for C6 on concrete successful constructions of both flavours. -/
theorem client_message_five_word_invariant_witness :
    (ClientMessage.mk 0 .NoEventMask "A" [9, 8, 7, 6, 5]).data.length = 5 ∧
    (ClientMessage.mk 1 .SubstructureNotify Atom.XEmbed.as_ref
      [0, 0, 0, 2, 0]).data.length = 5 :=
  ⟨client_message_five_word_invariant.1 0 .NoEventMask "A" [9, 8, 7, 6, 5]
      _ rfl,
   client_message_five_word_invariant.2 (ClientMessageKind.XEmbedNotify 1 2)
      (fun _ => .ok 0) _ rfl⟩

/-- C7: whenever `as_message` succeeds with message `m`, re-validating `m`'s
own fields through `try_from_data` succeeds and returns a message equal to
`m`. -/
theorem as_message_try_from_data_roundtrip (k : ClientMessageKind)
    (s : AtomResolver) (m : ClientMessage) (h : k.as_message s = .ok m) :
    ClientMessage.try_from_data m.id m.mask m.dtype m.data = .ok m := by
  rw [try_from_data_ok_iff]
  exact ⟨as_message_ok_shape k s m h, rfl⟩

/-- Witness for C7 on a concrete `XEmbedWindowActivate` message. -/
theorem as_message_try_from_data_roundtrip_witness :
    ClientMessage.try_from_data 4 .SubstructureNotify Atom.XEmbed.as_ref
      [0, 1, 0, 6, 0] =
      .ok ⟨4, .SubstructureNotify, Atom.XEmbed.as_ref, [0, 1, 0, 6, 0]⟩ :=
  as_message_try_from_data_roundtrip
    (ClientMessageKind.XEmbedWindowActivate 4 6) (fun _ => .error (.Raw "x"))
    ⟨4, .SubstructureNotify, Atom.XEmbed.as_ref, [0, 1, 0, 6, 0]⟩ rfl

/-- C9: for the four XEmbed kinds, `as_message` never consults the atom
resolver — its result is the same for any two resolvers — and it succeeds for
every resolver, the one failing on every name included. -/
theorem as_message_xembed_resolver_independent (id other : Xid)
    (s t : AtomResolver) :
    ((ClientMessageKind.XEmbedFocusIn id other).as_message s =
        (ClientMessageKind.XEmbedFocusIn id other).as_message t ∧
      ∃ m, (ClientMessageKind.XEmbedFocusIn id other).as_message s = .ok m) ∧
    ((ClientMessageKind.XEmbedModalityOn id other).as_message s =
        (ClientMessageKind.XEmbedModalityOn id other).as_message t ∧
      ∃ m, (ClientMessageKind.XEmbedModalityOn id other).as_message s =
        .ok m) ∧
    ((ClientMessageKind.XEmbedNotify id other).as_message s =
        (ClientMessageKind.XEmbedNotify id other).as_message t ∧
      ∃ m, (ClientMessageKind.XEmbedNotify id other).as_message s = .ok m) ∧
    ((ClientMessageKind.XEmbedWindowActivate id other).as_message s =
        (ClientMessageKind.XEmbedWindowActivate id other).as_message t ∧
      ∃ m, (ClientMessageKind.XEmbedWindowActivate id other).as_message s =
        .ok m) :=
  ⟨⟨rfl, _, rfl⟩, ⟨rfl, _, rfl⟩, ⟨rfl, _, rfl⟩, ⟨rfl, _, rfl⟩⟩

/-- C10: for every input with 5 data words, `try_from_data` returns a message
carrying exactly the supplied `id`, `mask` and `dtype` unchanged, along with
the data words. -/
theorem try_from_data_preserves_fields (id : Xid) (mask : ClientEventMask)
    (dtype : String) (data : List Nat) (h : data.length = 5) :
    ClientMessage.try_from_data id mask dtype data =
      .ok ⟨id, mask, dtype, data⟩ := by
  rw [try_from_data_ok_iff]
  exact ⟨h, rfl⟩

/-- Witness for C10 at a concrete 5-word input. -/
theorem try_from_data_preserves_fields_witness :
    ClientMessage.try_from_data 3 .SubstructureNotify "DT" [5, 6, 7, 8, 9] =
      .ok ⟨3, .SubstructureNotify, "DT", [5, 6, 7, 8, 9]⟩ :=
  try_from_data_preserves_fields 3 .SubstructureNotify "DT" [5, 6, 7, 8, 9]
    rfl

theorem clientEventMask_beq_iff (a b : ClientEventMask) :
    a.beq b = true ↔ a = b := by
  cases a <;> cases b <;> simp [ClientEventMask.beq]

theorem clientMessage_beq_iff (a b : ClientMessage) :
    a.beq b = true ↔ a = b := by
  cases a; cases b
  simp [ClientMessage.beq, clientEventMask_beq_iff, and_assoc]

theorem point_beq_iff (a b : Point) : a.beq b = true ↔ a = b := by
  cases a; cases b
  simp [Point.beq, and_assoc]

theorem region_beq_iff (a b : Region) : a.beq b = true ↔ a = b := by
  cases a; cases b
  simp [Region.beq, and_assoc]

theorem keyCode_beq_iff (a b : KeyCode) : a.beq b = true ↔ a = b := by
  cases a; cases b
  simp [KeyCode.beq, and_assoc]

theorem mouseEvent_beq_iff (a b : MouseEvent) : a.beq b = true ↔ a = b := by
  cases a; cases b
  simp [MouseEvent.beq, point_beq_iff, and_assoc]

theorem configureEvent_beq_iff (a b : ConfigureEvent) :
    a.beq b = true ↔ a = b := by
  cases a; cases b
  simp [ConfigureEvent.beq, region_beq_iff, and_assoc]

theorem exposeEvent_beq_iff (a b : ExposeEvent) : a.beq b = true ↔ a = b := by
  cases a; cases b
  simp [ExposeEvent.beq, region_beq_iff, and_assoc]

theorem pointerChange_beq_iff (a b : PointerChange) :
    a.beq b = true ↔ a = b := by
  cases a; cases b
  simp [PointerChange.beq, point_beq_iff, and_assoc]

theorem propertyEvent_beq_iff (a b : PropertyEvent) :
    a.beq b = true ↔ a = b := by
  cases a; cases b
  simp [PropertyEvent.beq, and_assoc]

theorem xEvent_beq_iff (a b : XEvent) : a.beq b = true ↔ a = b := by
  cases a <;> cases b <;>
    simp [XEvent.beq, clientMessage_beq_iff, configureEvent_beq_iff,
      pointerChange_beq_iff, exposeEvent_beq_iff, keyCode_beq_iff,
      mouseEvent_beq_iff, propertyEvent_beq_iff, and_assoc]

/-- C8: equality and hashing on `XEvent` and its payload structs are
structural: two values are equal exactly when the field-by-field comparison
succeeds, and equal values hash identically, regardless of how they were
constructed. -/
theorem xevent_structural_eq_hash :
    (∀ a b : ClientMessage, a = b ↔ a.beq b = true) ∧
    (∀ a b : ClientMessage, a = b → a.hashW = b.hashW) ∧
    (∀ a b : ConfigureEvent, a = b ↔ a.beq b = true) ∧
    (∀ a b : ConfigureEvent, a = b → a.hashW = b.hashW) ∧
    (∀ a b : ExposeEvent, a = b ↔ a.beq b = true) ∧
    (∀ a b : ExposeEvent, a = b → a.hashW = b.hashW) ∧
    (∀ a b : PointerChange, a = b ↔ a.beq b = true) ∧
    (∀ a b : PointerChange, a = b → a.hashW = b.hashW) ∧
    (∀ a b : PropertyEvent, a = b ↔ a.beq b = true) ∧
    (∀ a b : PropertyEvent, a = b → a.hashW = b.hashW) ∧
    (∀ a b : XEvent, a = b ↔ a.beq b = true) ∧
    (∀ a b : XEvent, a = b → a.hashW = b.hashW) :=
  ⟨fun a b => (clientMessage_beq_iff a b).symm,
   fun _ _ h => congrArg ClientMessage.hashW h,
   fun a b => (configureEvent_beq_iff a b).symm,
   fun _ _ h => congrArg ConfigureEvent.hashW h,
   fun a b => (exposeEvent_beq_iff a b).symm,
   fun _ _ h => congrArg ExposeEvent.hashW h,
   fun a b => (pointerChange_beq_iff a b).symm,
   fun _ _ h => congrArg PointerChange.hashW h,
   fun a b => (propertyEvent_beq_iff a b).symm,
   fun _ _ h => congrArg PropertyEvent.hashW h,
   fun a b => (xEvent_beq_iff a b).symm,
   fun _ _ h => congrArg XEvent.hashW h⟩

/-- Witness for C8: each hash-congruence conjunct applied at concrete equal
values, and the equality conjunct for `XEvent` at a concrete pair. -/
theorem xevent_structural_eq_hash_witness :
    ((ClientMessage.mk 1 .NoEventMask "A" [1, 2, 3, 4, 5]).hashW =
      (ClientMessage.mk 1 .NoEventMask "A" [1, 2, 3, 4, 5]).hashW) ∧
    ((ConfigureEvent.mk 2 ⟨0, 0, 3, 4⟩ true).hashW =
      (ConfigureEvent.mk 2 ⟨0, 0, 3, 4⟩ true).hashW) ∧
    ((ExposeEvent.mk 3 ⟨1, 1, 2, 2⟩ 0).hashW =
      (ExposeEvent.mk 3 ⟨1, 1, 2, 2⟩ 0).hashW) ∧
    ((PointerChange.mk 4 ⟨5, 6⟩ ⟨1, 2⟩).hashW =
      (PointerChange.mk 4 ⟨5, 6⟩ ⟨1, 2⟩).hashW) ∧
    ((PropertyEvent.mk 5 "WM_NAME" false).hashW =
      (PropertyEvent.mk 5 "WM_NAME" false).hashW) ∧
    ((XEvent.Destroy 7).hashW = (XEvent.Destroy 7).hashW) ∧
    (XEvent.Destroy 7 = XEvent.Destroy 7 ↔
      (XEvent.Destroy 7).beq (XEvent.Destroy 7) = true) :=
  ⟨xevent_structural_eq_hash.2.1 _ _ rfl,
   xevent_structural_eq_hash.2.2.2.1 _ _ rfl,
   xevent_structural_eq_hash.2.2.2.2.2.1 _ _ rfl,
   xevent_structural_eq_hash.2.2.2.2.2.2.2.1 _ _ rfl,
   xevent_structural_eq_hash.2.2.2.2.2.2.2.2.2.1 _ _ rfl,
   xevent_structural_eq_hash.2.2.2.2.2.2.2.2.2.2.2 _ _ rfl,
   xevent_structural_eq_hash.2.2.2.2.2.2.2.2.2.2.1 (XEvent.Destroy 7)
     (XEvent.Destroy 7)⟩

end Penrose
